import Mathlib

/-!
Shallow embedding of `src/klipper_ledstrip.py` (Klipper-WS281x_LED_Status).

Numeric model:
* Python ints are `ℤ`/`ℕ`, Python floats are `ℚ`.
* Python's `round` (banker's rounding, round half to even) is `rhe`.
* Python's `int()` truncation toward zero is `pyInt`.
* Where double-precision rounding is observable (`color_brightness_correction`
  divides and multiplies small integers through floats and then truncates),
  IEEE-754 binary64 round-to-nearest-even is modelled exactly by `fl`,
  valid for the nonnegative normal-range values reached by the script.
* Fallible operations (float division by zero raises `ZeroDivisionError`)
  return `Option`.
* The blocking animation procedures are modelled as the trace of strip
  driver calls they perform; the controller-loop state updates are modelled
  as explicit state-passing step functions.
-/

namespace KlipperLed

/-- `LED_COUNT = 10` from the script configuration header. -/
def LED_COUNT : ℕ := 10

/-- `LED_BRIGHTNESS = 255` from the script configuration header. -/
def LED_BRIGHTNESS : ℕ := 255

/-- `REVERSE = False` from the script configuration header. -/
def REVERSE : Bool := false

/-- `SHUTDOWN_WHEN_COMPLETE = True` from the script configuration header. -/
def SHUTDOWN_WHEN_COMPLETE : Bool := true

/-- `BED_TEMP_FOR_OFF = 50` from the script configuration header. -/
def BED_TEMP_FOR_OFF : ℚ := 50

/-- `HOTEND_TEMP_FOR_OFF = 40` from the script configuration header. -/
def HOTEND_TEMP_FOR_OFF : ℚ := 40

/-- `IDLE_TIMEOUT = 300` from the script configuration header. -/
def IDLE_TIMEOUT : ℤ := 300

/-- `COMPLETE_COLOR = (235, 227, 9)` from the script configuration header. -/
def COMPLETE_COLOR : ℤ × ℤ × ℤ := (235, 227, 9)

/-- Python's built-in `round` on exact values: round half to even. -/
def rhe (q : ℚ) : ℤ :=
  if q - ⌊q⌋ < 1 / 2 then ⌊q⌋
  else if 1 / 2 < q - ⌊q⌋ then ⌊q⌋ + 1
  else if ⌊q⌋ % 2 = 0 then ⌊q⌋ else ⌊q⌋ + 1

/-- Python's `int()` on a number: truncation toward zero. -/
def pyInt (q : ℚ) : ℤ := if 0 ≤ q then ⌊q⌋ else ⌈q⌉

/-- `⌊log₂ q⌋` for rationals `q ≥ 2 ^ (-100)` (all values reached here are). -/
def floorLog2 (q : ℚ) : ℤ := (Nat.log2 (⌊q * 2 ^ (100 : ℕ)⌋.toNat) : ℤ) - 100

/-- IEEE-754 binary64 rounding (round to nearest, ties to even) of an exact
rational, for nonnegative arguments in the normal range — the only arguments
produced by the script (small nonnegative integers divided by 255 and scaled
back up). Negative, subnormal and overflowing inputs never occur. -/
def fl (q : ℚ) : ℚ :=
  if q ≤ 0 then 0
  else (rhe (q * 2 ^ ((52 : ℤ) - floorLog2 q)) : ℚ) * 2 ^ (floorLog2 q - (52 : ℤ))

/-- `average(num_a, num_b)` from the script: `round((num_a + num_b) / 2)`. -/
def average (num_a num_b : ℚ) : ℤ := rhe ((num_a + num_b) / 2)

/-- `mix_color(colour1, colour2, percent_of_c1=None)` from the script.
`if percent_of_c1:` is Python truthiness: `None` and `0.0` both skip the
weighting step, any nonzero weight scales `colour1` by the weight and
`colour2` by one minus the weight; then the channels are combined with
`average` and cast with `int()` (the cast is the identity on `round`'s
integer output). -/
def mix_color (colour1 colour2 : ℤ × ℤ × ℤ) (percent_of_c1 : Option ℚ) : ℤ × ℤ × ℤ :=
  let w : ℚ := percent_of_c1.getD 0
  let c1 : ℚ × ℚ × ℚ :=
    if w ≠ 0 then (colour1.1 * w, colour1.2.1 * w, colour1.2.2 * w)
    else (colour1.1, colour1.2.1, colour1.2.2)
  let c2 : ℚ × ℚ × ℚ :=
    if w ≠ 0 then (colour2.1 * (1 - w), colour2.2.1 * (1 - w), colour2.2.2 * (1 - w))
    else (colour2.1, colour2.2.1, colour2.2.2)
  (average c1.1 c2.1, average c1.2.1 c2.2.1, average c1.2.2 c2.2.2)

/-- `color_brightness_correction(color, brightness)` from the script:
`brightness / 255` is a float division (one binary64 rounding), each channel
is multiplied by it (one binary64 rounding each) and truncated with `int()`. -/
def color_brightness_correction (color : ℤ × ℤ × ℤ) (brightness : ℚ) : ℤ × ℤ × ℤ :=
  let brightness_correction : ℚ := fl (brightness / 255)
  (pyInt (fl (color.1 * brightness_correction)),
   pyInt (fl (color.2.1 * brightness_correction)),
   pyInt (fl (color.2.2 * brightness_correction)))

/-- `heating_percent(temp, target, base_temp)` from the script. A zero target
returns 0 before any division; otherwise the script divides by
`target - base_temp`, and Python raises `ZeroDivisionError` when that
difference is zero, modelled as `none`. -/
def heating_percent (temp target base_temp : ℚ) : Option ℤ :=
  if target = 0 then some 0
  else if target - base_temp = 0 then none
  else some ⌊((temp - base_temp) * 100) / (target - base_temp)⌋

/-- The fields read out of the `heater_bed & extruder & display_status`
query by `printing_stats`. -/
structure HeaterQuery where
  bed_temp : ℚ
  bed_target : ℚ
  bed_power : ℚ
  extruder_temp : ℚ
  extruder_target : ℚ
  extruder_power : ℚ
  progress : ℚ

/-- The dictionary built by `printing_stats`. -/
structure PrintingStats where
  bed_temp : ℚ
  bed_heating_percent : ℤ
  bed_power_percent : ℤ
  extruder_temp : ℚ
  extruder_heating_percent : ℤ
  extruder_power_percent : ℤ
  done_percent : ℤ
deriving DecidableEq

/-- `printing_stats(base_temps)` from the script, with the HTTP response data
passed in explicitly. `base_temps[i] if base_temps else 0` selects the
captured baseline or 0. A `ZeroDivisionError` escaping from
`heating_percent` aborts the call (`none`). -/
def printing_stats (data : HeaterQuery) (base_temps : Option (ℚ × ℚ)) :
    Option PrintingStats :=
  let bed_base_temp : ℚ := match base_temps with | some bt => bt.1 | none => 0
  let extruder_base_temp : ℚ := match base_temps with | some bt => bt.2 | none => 0
  match heating_percent data.bed_temp data.bed_target bed_base_temp,
      heating_percent data.extruder_temp data.extruder_target extruder_base_temp with
  | some bed_hp, some extruder_hp =>
      some
        { bed_temp := data.bed_temp
          bed_heating_percent := bed_hp
          bed_power_percent := rhe (data.bed_power * 100)
          extruder_temp := data.extruder_temp
          extruder_heating_percent := extruder_hp
          extruder_power_percent := rhe (data.extruder_power * 100)
          done_percent := rhe (data.progress * 100) }
  | _, _ => none

/-- A strip pixel buffer, indexed by pixel number. -/
def Strip : Type := ℕ → ℤ × ℤ × ℤ

/-- A Python loop `for i in ...: strip.setPixelColorRGB(idx i, *c)` over a
precomputed index list: left fold of pointwise updates. -/
def setPixels (strip : Strip) (idxs : List ℕ) (c : ℤ × ℤ × ℤ) : Strip :=
  idxs.foldl (fun g i => Function.update g i c) strip

/-- `progress(strip, percent, base_color, progress_color)` from the script,
as a pure function from the initial pixel buffer to the final one
(`setBrightness`/`show` calls do not affect the buffer). `math.modf` splits
`upper_bar` into fractional and whole parts; for the nonnegative percentages
the script passes, `int(upper_whole)` is the floor. The three loops write,
in order: the whole pixels, the single blended pixel (only when the
remainder is positive), and the remaining pixels in base color. -/
def progress (strip0 : Strip) (num_pixels : ℕ) (percent : ℚ)
    (base_color progress_color : ℤ × ℤ × ℤ) : Strip :=
  let upper_bar : ℚ := percent / 100 * num_pixels
  let upper_whole : ℕ := ⌊upper_bar⌋.toNat
  let upper_remainder : ℚ := upper_bar - ⌊upper_bar⌋
  let f1 : Strip := setPixels strip0
    ((List.range upper_whole).map fun i => if REVERSE then num_pixels - 1 - i else i)
    (color_brightness_correction progress_color (LED_BRIGHTNESS : ℚ))
  let remaining1 : ℕ := num_pixels - upper_whole
  let f2 : Strip :=
    if 0 < upper_remainder then
      Function.update f1 (if REVERSE then num_pixels - upper_whole - 1 else upper_whole)
        (color_brightness_correction
          (mix_color progress_color base_color (some upper_remainder)) (LED_BRIGHTNESS : ℚ))
    else f1
  let remaining2 : ℕ := if 0 < upper_remainder then remaining1 - 1 else remaining1
  setPixels f2
    ((List.range remaining2).map fun i =>
      if REVERSE then remaining2 - 1 - i else num_pixels - remaining2 + i)
    (color_brightness_correction base_color (LED_BRIGHTNESS : ℚ))

/-- The four strip-rendering statements in the `printing` branch of `run()`. -/
inductive RenderAction
  | bedBar
  | extruderBar
  | clearGap
  | printBar
deriving DecidableEq

/-- The `printing` branch of `run()`: four independent `if` statements,
executed in source order, each guarded by its own condition on the printing
percent and the bed/extruder heating percents (all Python ints). The result
lists which rendering actions execute on the tick, in execution order. -/
def printingTickActions (printing_percent bed_heating extruder_heating : ℤ) :
    List RenderAction :=
  (if printing_percent < 1 ∧ bed_heating < 100 then [RenderAction.bedBar] else []) ++
  (if printing_percent < 1 ∧ extruder_heating < 100 ∧ 99 ≤ bed_heating then
    [RenderAction.extruderBar] else []) ++
  (if printing_percent = 0 ∧ 100 ≤ extruder_heating ∧ 100 ≤ bed_heating then
    [RenderAction.clearGap] else []) ++
  (if 0 < printing_percent ∧ printing_percent < 100 then [RenderAction.printBar] else [])

/-- Strip driver / timer calls performed by `fade`. -/
inductive FadeEvent
  | setAll (c : ℤ × ℤ × ℤ)
  | flush
  | setBrightness (b : ℕ)
  | sleep (d : ℚ)
deriving DecidableEq

/-- `fade(strip, color, speed)` from the script, as the trace of its strip
driver and `time.sleep` calls. The per-step delay is `0.05` for `'slow'` and
`0.005` otherwise. The pixels are set and flushed first, then
`for i in range(LED_BRIGHTNESS)` ramps the brightness through `0..254`
(flush and sleep after each step), one sleep of five delays follows, and
`for i in range(LED_BRIGHTNESS, -1, -1)` sets `255, 254, ..., 0`. -/
def fade (color : ℤ × ℤ × ℤ) (speed : String) : List FadeEvent :=
  let spd : ℚ := if speed = "slow" then 5 / 100 else 5 / 1000
  [FadeEvent.setAll color, FadeEvent.flush] ++
  ((List.range LED_BRIGHTNESS).flatMap fun i =>
    [FadeEvent.setBrightness i, FadeEvent.flush, FadeEvent.sleep spd]) ++
  [FadeEvent.sleep (spd * 5)] ++
  ((List.range (LED_BRIGHTNESS + 1)).reverse.flatMap fun i =>
    [FadeEvent.setBrightness i, FadeEvent.flush, FadeEvent.sleep spd])

/-- The successive global-brightness values written by a trace. -/
def brightnessWrites (evts : List FadeEvent) : List ℕ :=
  evts.filterMap fun e =>
    match e with
    | FadeEvent.setBrightness b => some b
    | _ => none

/-- The idle-timer update at the end of each `run()` loop iteration:
if the current state is neither `printing` nor `complete` and equals the
previous tick's state, the timer grows by the 2-second cadence and the strip
is cleared when the timer exceeds `IDLE_TIMEOUT`; otherwise the timer resets.
Returns the new timer value and whether `clear_strip` ran. -/
def idleTick (idle_timer : ℤ) (old_state printer_state : String) : ℤ × Bool :=
  if ¬(printer_state = "printing" ∨ printer_state = "complete") ∧
      old_state = printer_state then
    (idle_timer + 2, decide (IDLE_TIMEOUT < idle_timer + 2))
  else (0, false)

/-- Iterate `idleTick` over a list of polled states, threading the timer and
the previous state and recording for each tick whether the strip was
cleared. -/
def idleRun (idle_timer : ℤ) (old_state : String) :
    List String → ℤ × String × List Bool
  | [] => (idle_timer, old_state, [])
  | s :: rest =>
      let step := idleTick idle_timer old_state s
      let next := idleRun step.1 s rest
      (next.1, next.2.1, step.2 :: next.2.2)

/-- Externally visible actions of one `complete`-state tick. -/
inductive CEvent
  | ghostBounce (c : ℤ × ℤ × ℤ)
  | clearStrip
  | powerOff
deriving DecidableEq

/-- The `complete` branch of `run()` (strip/power actions and the shutdown
counter; the `base_temps` reset is modelled separately in `baseTempsTick`).
With power on it plays a ghost bounce and increments the counter; once the
counter passes 9 it resets and, when the re-queried temperatures are below
both off-thresholds, clears the strip and issues the power-off call. -/
def completeTick (shutdown_counter : ℕ) (powerOn : Bool) (bed_temp extruder_temp : ℚ) :
    ℕ × List CEvent :=
  if powerOn then
    let c1 := shutdown_counter + 1
    if SHUTDOWN_WHEN_COMPLETE = true ∧ 9 < c1 then
      if bed_temp < BED_TEMP_FOR_OFF ∧ extruder_temp < HOTEND_TEMP_FOR_OFF then
        (0, [CEvent.ghostBounce COMPLETE_COLOR, CEvent.clearStrip, CEvent.powerOff])
      else (0, [CEvent.ghostBounce COMPLETE_COLOR])
    else (c1, [CEvent.ghostBounce COMPLETE_COLOR])
  else (shutdown_counter, [])

/-- `n` consecutive `complete` ticks with constant power status and
temperatures, returning the final counter and the per-tick event lists. -/
def completeRun (shutdown_counter : ℕ) : ℕ → ℚ → ℚ → ℕ × List (List CEvent)
  | 0, _, _ => (shutdown_counter, [])
  | n + 1, bed_temp, extruder_temp =>
      let step := completeTick shutdown_counter true bed_temp extruder_temp
      let rest := completeRun step.1 n bed_temp extruder_temp
      (rest.1, step.2 :: rest.2)

/-- The `base_temps` updates of one `run()` loop iteration: a `printing`
tick captures the current bed/extruder temperatures when no baseline is
held (`if not base_temps`), a `complete` tick resets the baseline
(`base_temps = []`), and every other state leaves it untouched. -/
def baseTempsTick (base_temps : Option (ℚ × ℚ)) (printer_state : String)
    (bed_temp extruder_temp : ℚ) : Option (ℚ × ℚ) :=
  if printer_state = "printing" then
    match base_temps with
    | none => some (bed_temp, extruder_temp)
    | some bt => some bt
  else if printer_state = "complete" then none
  else base_temps

/-- Iterate `baseTempsTick` over a list of (state, bed temp, extruder temp)
ticks. -/
def baseTempsRun (base_temps : Option (ℚ × ℚ)) :
    List (String × ℚ × ℚ) → Option (ℚ × ℚ)
  | [] => base_temps
  | (s, temps) :: rest =>
      baseTempsRun (baseTempsTick base_temps s temps.1 temps.2) rest

/-- Channels of a color lie in `[0, 255]`. -/
def ValidColor (c : ℤ × ℤ × ℤ) : Prop :=
  0 ≤ c.1 ∧ c.1 ≤ 255 ∧ 0 ≤ c.2.1 ∧ c.2.1 ≤ 255 ∧ 0 ≤ c.2.2 ∧ c.2.2 ≤ 255

instance (c : ℤ × ℤ × ℤ) : Decidable (ValidColor c) := by
  unfold ValidColor; infer_instance

/-! ### Helper lemmas about the rounding primitives -/

theorem rhe_intCast (m : ℤ) : rhe (m : ℚ) = m := by
  simp [rhe]

theorem rhe_eq_floor_or (q : ℚ) : rhe q = ⌊q⌋ ∨ rhe q = ⌊q⌋ + 1 := by
  unfold rhe
  split_ifs <;> simp

theorem rhe_nonneg (q : ℚ) (h : 0 ≤ q) : 0 ≤ rhe q := by
  have hfl : 0 ≤ ⌊q⌋ := Int.floor_nonneg.mpr h
  rcases rhe_eq_floor_or q with h' | h' <;> omega

theorem rhe_le_of_le (q : ℚ) (n : ℤ) (h : q ≤ n) : rhe q ≤ n := by
  have hfl : ⌊q⌋ ≤ n := by
    have := Int.floor_le_floor h
    simpa using this
  unfold rhe
  split_ifs with h1 h2 h3
  · exact hfl
  · have hlt : (⌊q⌋ : ℚ) + 1 / 2 < q := by linarith
    have : (⌊q⌋ : ℚ) < (n : ℚ) := by linarith
    have : ⌊q⌋ < n := by exact_mod_cast this
    omega
  · exact hfl
  · have heq : q - ⌊q⌋ = 1 / 2 := le_antisymm (not_lt.mp h2) (not_lt.mp h1)
    have : (⌊q⌋ : ℚ) < (n : ℚ) := by linarith
    have : ⌊q⌋ < n := by exact_mod_cast this
    omega

theorem average_in_range (a b : ℚ) (ha : 0 ≤ a) (hb : 0 ≤ b) (hab : a + b ≤ 510) :
    0 ≤ average a b ∧ average a b ≤ 255 := by
  constructor
  · exact rhe_nonneg _ (by linarith)
  · exact rhe_le_of_le _ 255 (by push_cast; linarith)

theorem log2_mul_two_pow (n k : ℕ) (hn : n ≠ 0) :
    Nat.log2 (n * 2 ^ k) = Nat.log2 n + k := by
  rw [Nat.log2_eq_log_two, Nat.log2_eq_log_two]
  refine Nat.log_eq_of_pow_le_of_lt_pow ?_ ?_
  · rw [pow_add]
    exact Nat.mul_le_mul_right _ (Nat.pow_log_le_self 2 hn)
  · have h1 : n < 2 ^ (Nat.log 2 n + 1) := Nat.lt_pow_succ_log_self (by norm_num) n
    calc n * 2 ^ k < 2 ^ (Nat.log 2 n + 1) * 2 ^ k :=
          Nat.mul_lt_mul_of_lt_of_le h1 le_rfl (Nat.pos_pow_of_pos k (by norm_num))
    _ = 2 ^ (Nat.log 2 n + k + 1) := by rw [← pow_add]; ring_nf

theorem floorLog2_natCast (n : ℕ) (h1 : 1 ≤ n) : floorLog2 (n : ℚ) = Nat.log2 n := by
  unfold floorLog2
  have hcast : ((n : ℚ) * 2 ^ (100 : ℕ)) = ((n * 2 ^ 100 : ℕ) : ℚ) := by push_cast; ring
  rw [hcast, Int.floor_natCast]
  simp only [Int.toNat_natCast]
  rw [log2_mul_two_pow n 100 (by omega)]
  omega

theorem fl_natCast (n : ℕ) (h1 : 1 ≤ n) (h2 : n ≤ 2 ^ 52) : fl (n : ℚ) = n := by
  have hpos : ¬((n : ℚ) ≤ 0) := by
    push_neg
    exact_mod_cast h1
  unfold fl
  rw [if_neg hpos, floorLog2_natCast n h1]
  have hk52 : Nat.log2 n ≤ 52 := by
    rw [Nat.log2_eq_log_two]
    calc Nat.log 2 n ≤ Nat.log 2 (2 ^ 52) := Nat.log_mono_right h2
    _ = 52 := Nat.log_pow (by norm_num) 52
  have hexp : (52 : ℤ) - (Nat.log2 n : ℤ) = ((52 - Nat.log2 n : ℕ) : ℤ) := by omega
  have hint : (n : ℚ) * (2 : ℚ) ^ ((52 : ℤ) - (Nat.log2 n : ℤ)) =
      (((n * 2 ^ (52 - Nat.log2 n) : ℕ) : ℤ) : ℚ) := by
    rw [hexp, zpow_natCast]
    push_cast
    ring
  rw [hint, rhe_intCast]
  push_cast
  rw [mul_assoc]
  have hone : (2 : ℚ) ^ ((52 - Nat.log2 n : ℕ)) * (2 : ℚ) ^ ((Nat.log2 n : ℤ) - 52) = 1 := by
    rw [← zpow_natCast (2 : ℚ) (52 - Nat.log2 n),
      ← zpow_add₀ (by norm_num : (2 : ℚ) ≠ 0),
      (by omega : ((52 - Nat.log2 n : ℕ) : ℤ) + ((Nat.log2 n : ℤ) - 52) = 0)]
    exact zpow_zero 2
  rw [hone, mul_one]

theorem fl_zero : fl 0 = 0 := by
  unfold fl
  simp

theorem fl_intCast (m : ℤ) (h0 : 0 ≤ m) (h2 : m ≤ 2 ^ 52) : fl (m : ℚ) = m := by
  rcases eq_or_lt_of_le h0 with h | h
  · rw [← h]
    simpa using fl_zero
  · have hcast : ((m.toNat : ℕ) : ℚ) = (m : ℚ) := by
      exact_mod_cast congrArg (Int.cast : ℤ → ℚ) (Int.toNat_of_nonneg h0)
    have := fl_natCast m.toNat (by omega) (by omega)
    rw [hcast] at this
    rw [this]

theorem pyInt_intCast (m : ℤ) : pyInt (m : ℚ) = m := by
  unfold pyInt
  split_ifs <;> simp

theorem cbc_zero (c : ℤ × ℤ × ℤ) : color_brightness_correction c 0 = (0, 0, 0) := by
  unfold color_brightness_correction
  norm_num [fl_zero]
  simp [pyInt]

theorem cbc_255 (c : ℤ × ℤ × ℤ) (h : ValidColor c) :
    color_brightness_correction c 255 = c := by
  obtain ⟨h1, h2, h3, h4, h5, h6⟩ := h
  unfold color_brightness_correction
  have h255 : (255 : ℚ) / 255 = 1 := by norm_num
  have hfl1 : fl 1 = 1 := by simpa using fl_natCast 1 le_rfl (by norm_num)
  rw [h255, hfl1]
  simp only [mul_one]
  rw [fl_intCast c.1 h1 (le_trans h2 (by norm_num)),
    fl_intCast c.2.1 h3 (le_trans h4 (by norm_num)),
    fl_intCast c.2.2 h5 (le_trans h6 (by norm_num)),
    pyInt_intCast, pyInt_intCast, pyInt_intCast]

theorem mix_color_valid (A B : ℤ × ℤ × ℤ) (w : ℚ) (h0 : 0 ≤ w) (h1 : w ≤ 1)
    (hA : ValidColor A) (hB : ValidColor B) : ValidColor (mix_color A B (some w)) := by
  obtain ⟨a1, a2, a3, a4, a5, a6⟩ := hA
  obtain ⟨b1, b2, b3, b4, b5, b6⟩ := hB
  have hch : ∀ x y : ℤ, 0 ≤ x → x ≤ 255 → 0 ≤ y → y ≤ 255 →
      0 ≤ average ((x : ℚ) * w) ((y : ℚ) * (1 - w)) ∧
      average ((x : ℚ) * w) ((y : ℚ) * (1 - w)) ≤ 255 := by
    intro x y hx0 hx1 hy0 hy1
    have hxq : (0 : ℚ) ≤ (x : ℚ) := by exact_mod_cast hx0
    have hxq' : (x : ℚ) ≤ 255 := by exact_mod_cast hx1
    have hyq : (0 : ℚ) ≤ (y : ℚ) := by exact_mod_cast hy0
    have hyq' : (y : ℚ) ≤ 255 := by exact_mod_cast hy1
    refine average_in_range _ _ (mul_nonneg hxq h0) (mul_nonneg hyq (by linarith)) ?_
    have hxc : (x : ℚ) * w ≤ 255 * w := mul_le_mul_of_nonneg_right hxq' h0
    have hyc : (y : ℚ) * (1 - w) ≤ 255 * (1 - w) :=
      mul_le_mul_of_nonneg_right hyq' (by linarith)
    linarith
  have hch' : ∀ x y : ℤ, 0 ≤ x → x ≤ 255 → 0 ≤ y → y ≤ 255 →
      0 ≤ average (x : ℚ) (y : ℚ) ∧ average (x : ℚ) (y : ℚ) ≤ 255 := by
    intro x y hx0 hx1 hy0 hy1
    have hxq : (0 : ℚ) ≤ (x : ℚ) := by exact_mod_cast hx0
    have hxq' : (x : ℚ) ≤ 255 := by exact_mod_cast hx1
    have hyq : (0 : ℚ) ≤ (y : ℚ) := by exact_mod_cast hy0
    have hyq' : (y : ℚ) ≤ 255 := by exact_mod_cast hy1
    exact average_in_range _ _ hxq hyq (by linarith)
  by_cases hw : w = 0
  · subst hw
    simp only [ValidColor, mix_color, Option.getD_some, ne_eq, not_true_eq_false,
      if_false, ite_false]
    exact ⟨(hch' _ _ a1 a2 b1 b2).1, (hch' _ _ a1 a2 b1 b2).2,
      (hch' _ _ a3 a4 b3 b4).1, (hch' _ _ a3 a4 b3 b4).2,
      (hch' _ _ a5 a6 b5 b6).1, (hch' _ _ a5 a6 b5 b6).2⟩
  · simp only [ValidColor, mix_color, Option.getD_some, ne_eq, hw, not_false_eq_true,
      if_true, ite_true]
    exact ⟨(hch _ _ a1 a2 b1 b2).1, (hch _ _ a1 a2 b1 b2).2,
      (hch _ _ a3 a4 b3 b4).1, (hch _ _ a3 a4 b3 b4).2,
      (hch _ _ a5 a6 b5 b6).1, (hch _ _ a5 a6 b5 b6).2⟩

theorem floorLog2_eq (q : ℚ) (e : ℤ) (he : -100 ≤ e)
    (hlo : (2 : ℚ) ^ e ≤ q) (hhi : q < 2 ^ (e + 1)) : floorLog2 q = e := by
  unfold floorLog2
  have het : (e + 100 : ℤ) = ((e + 100).toNat : ℤ) := by omega
  set t : ℕ := (e + 100).toNat with ht
  have hq100 : (2 : ℚ) ^ (100 : ℕ) = (2 : ℚ) ^ ((100 : ℕ) : ℤ) := (zpow_natCast 2 100).symm
  have hlo' : (2 : ℚ) ^ ((t : ℤ)) ≤ q * 2 ^ (100 : ℕ) := by
    have h1 : (2 : ℚ) ^ ((t : ℤ)) = 2 ^ e * 2 ^ (100 : ℕ) := by
      rw [hq100, ← zpow_add₀ (by norm_num : (2 : ℚ) ≠ 0)]
      congr 1
      push_cast
      omega
    rw [h1]
    exact mul_le_mul_of_nonneg_right hlo (by positivity)
  have hhi' : q * 2 ^ (100 : ℕ) < (2 : ℚ) ^ ((t : ℤ) + 1) := by
    have h2 : (2 : ℚ) ^ ((t : ℤ) + 1) = 2 ^ (e + 1) * 2 ^ (100 : ℕ) := by
      rw [hq100, ← zpow_add₀ (by norm_num : (2 : ℚ) ≠ 0)]
      congr 1
      push_cast
      omega
    rw [h2]
    exact mul_lt_mul_of_pos_right hhi (by positivity)
  have hcast1 : ((2 ^ t : ℕ) : ℚ) = (2 : ℚ) ^ ((t : ℤ)) := by
    push_cast
    exact (zpow_natCast 2 t).symm
  have hcast2 : ((2 ^ (t + 1) : ℕ) : ℚ) = (2 : ℚ) ^ ((t : ℤ) + 1) := by
    rw [show ((t : ℤ) + 1) = ((t + 1 : ℕ) : ℤ) by omega, zpow_natCast]
    push_cast
    ring
  have hfl1 : ((2 ^ t : ℕ) : ℤ) ≤ ⌊q * 2 ^ (100 : ℕ)⌋ := by
    apply Int.le_floor.mpr
    push_cast
    rw [← hcast1] at hlo'
    exact_mod_cast hlo'
  have hfl2 : ⌊q * 2 ^ (100 : ℕ)⌋ < ((2 ^ (t + 1) : ℕ) : ℤ) := by
    apply Int.floor_lt.mpr
    push_cast
    rw [← hcast2] at hhi'
    exact_mod_cast hhi'
  have hnat1 : 2 ^ t ≤ ⌊q * 2 ^ (100 : ℕ)⌋.toNat := by omega
  have hnat2 : ⌊q * 2 ^ (100 : ℕ)⌋.toNat < 2 ^ (t + 1) := by omega
  have hlog : Nat.log2 ⌊q * 2 ^ (100 : ℕ)⌋.toNat = t := by
    rw [Nat.log2_eq_log_two]
    exact Nat.log_eq_of_pow_le_of_lt_pow hnat1 hnat2
  rw [hlog]
  omega

theorem fl_eq (q : ℚ) (e : ℤ) (he : -100 ≤ e) (hpos : 0 < q)
    (hlo : (2 : ℚ) ^ e ≤ q) (hhi : q < 2 ^ (e + 1)) :
    fl q = (rhe (q * 2 ^ ((52 : ℤ) - e)) : ℚ) * 2 ^ (e - (52 : ℤ)) := by
  unfold fl
  rw [if_neg (not_le.mpr hpos), floorLog2_eq q e he hlo hhi]

/-- The binary64 value of `155 / 255`: the exact quotient rounds down to
`5474964252881779 * 2 ^ (-53)`. -/
theorem fl_155_255 : fl (155 / 255) = 5474964252881779 / 2 ^ 53 := by
  have hlo : (2 : ℚ) ^ (-1 : ℤ) ≤ 155 / 255 := by
    rw [zpow_neg, zpow_one]
    norm_num
  have hhi : (155 / 255 : ℚ) < 2 ^ ((-1 : ℤ) + 1) := by
    norm_num
  have h := fl_eq (155 / 255) (-1) (by norm_num) (by norm_num) hlo hhi
  have harg : (155 / 255 : ℚ) * 2 ^ ((52 : ℤ) - (-1)) = 279223176896970752 / 51 := by
    rw [show ((52 : ℤ) - (-1)) = ((53 : ℕ) : ℤ) by norm_num, zpow_natCast]
    norm_num
  have hrhe : rhe ((279223176896970752 : ℚ) / 51) = 5474964252881779 := by
    have hfloor : ⌊(279223176896970752 : ℚ) / 51⌋ = 5474964252881779 := by
      norm_num
    unfold rhe
    rw [hfloor, if_pos (by norm_num)]
  rw [h, harg, hrhe]
  rw [show ((-1 : ℤ) - 52) = -((53 : ℕ) : ℤ) by norm_num, zpow_neg, zpow_natCast]
  norm_num

/-- The binary64 product `51 * fl(155 / 255)`: the exact product rounds down
to `8725724278030335 * 2 ^ (-48)`, which is strictly below 31. -/
theorem fl_51_155 :
    fl (51 * (5474964252881779 / 2 ^ 53)) = 8725724278030335 / 2 ^ 48 := by
  have hval : (51 : ℚ) * (5474964252881779 / 2 ^ 53) = 279223176896970729 / 9007199254740992 := by
    norm_num
  have hlo : (2 : ℚ) ^ (4 : ℤ) ≤ 279223176896970729 / 9007199254740992 := by
    rw [show ((4 : ℤ)) = ((4 : ℕ) : ℤ) by norm_num, zpow_natCast]
    norm_num
  have hhi : (279223176896970729 / 9007199254740992 : ℚ) < 2 ^ ((4 : ℤ) + 1) := by
    rw [show ((4 : ℤ) + 1) = ((5 : ℕ) : ℤ) by norm_num, zpow_natCast]
    norm_num
  have h := fl_eq (279223176896970729 / 9007199254740992) 4 (by norm_num) (by norm_num) hlo hhi
  have harg : (279223176896970729 / 9007199254740992 : ℚ) * 2 ^ ((52 : ℤ) - 4) =
      279223176896970729 / 32 := by
    rw [show ((52 : ℤ) - 4) = ((48 : ℕ) : ℤ) by norm_num, zpow_natCast]
    norm_num
  have hrhe : rhe ((279223176896970729 : ℚ) / 32) = 8725724278030335 := by
    have hfloor : ⌊(279223176896970729 : ℚ) / 32⌋ = 8725724278030335 := by
      norm_num
    unfold rhe
    rw [hfloor, if_pos (by norm_num)]
  rw [hval, h, harg, hrhe]
  rw [show ((4 : ℤ) - 52) = -((48 : ℕ) : ℤ) by norm_num, zpow_neg, zpow_natCast]
  norm_num

/-- The full double-precision evaluation of
`color_brightness_correction((51,51,51), 155)`: every channel truncates to
30, one below the exact `floor(51 * 155 / 255) = 31`. -/
theorem cbc_51_155 : color_brightness_correction (51, 51, 51) 155 = (30, 30, 30) := by
  unfold color_brightness_correction
  rw [fl_155_255]
  have hch : pyInt (fl ((51 : ℤ) * (5474964252881779 / 2 ^ 53))) = 30 := by
    rw [show (((51 : ℤ) : ℚ)) = (51 : ℚ) by norm_num, fl_51_155]
    unfold pyInt
    rw [if_pos (by norm_num)]
    norm_num
  exact Prod.ext hch (Prod.ext hch hch)

/-! ### Claim C1 -/

/-- C1 is false as stated: at `A = (255,0,0)`, `B = (0,0,0)`, `w = 1` the
claimed channel value `round(A_0 * 1 + B_0 * 0)` clamped to `[0,255]` is 255,
but `mix_color` averages the two weighted channels and yields 128. -/
theorem c1_counterexample :
    mix_color (255, 0, 0) (0, 0, 0) (some 1) = (128, 0, 0) ∧
    rhe ((255 : ℚ) * 1 + 0 * (1 - 1)) = 255 ∧ (128 : ℤ) ≠ 255 := by
  refine ⟨by norm_num [mix_color, average, rhe], by norm_num [rhe], by decide⟩

/-- C1 (amended): for a nonzero weight `w` in `[0,1]`, `mix_color A B w`
channel-wise equals `round((A_i * w + B_i * (1 - w)) / 2)` — the banker's
rounding of HALF the weighted sum, because the weighted channels are passed
through the per-channel `average`; for `w = 0` (falsy in Python) the
weighting is skipped and the result is the unweighted per-channel average
`round((A_i + B_i) / 2)`. No clamping is performed; for in-range inputs the
result lies in `[0,255]` on its own. -/
theorem c1_amended (A B : ℤ × ℤ × ℤ) (w : ℚ) (h0 : 0 ≤ w) (h1 : w ≤ 1)
    (hA : ValidColor A) (hB : ValidColor B) :
    (w ≠ 0 → mix_color A B (some w) =
      (rhe ((A.1 * w + B.1 * (1 - w)) / 2),
       rhe ((A.2.1 * w + B.2.1 * (1 - w)) / 2),
       rhe ((A.2.2 * w + B.2.2 * (1 - w)) / 2))) ∧
    (w = 0 → mix_color A B (some w) =
      (rhe (((A.1 : ℚ) + B.1) / 2),
       rhe (((A.2.1 : ℚ) + B.2.1) / 2),
       rhe (((A.2.2 : ℚ) + B.2.2) / 2))) ∧
    ValidColor (mix_color A B (some w)) := by
  refine ⟨?_, ?_, mix_color_valid A B w h0 h1 hA hB⟩
  · intro hw
    simp only [mix_color, Option.getD_some, ne_eq, hw, not_false_eq_true, if_true, ite_true]
    rfl
  · intro hw
    subst hw
    simp only [mix_color, Option.getD_some, ne_eq, not_true_eq_false, if_false, ite_false]
    rfl

/-- Witness for C1 (amended) at `A = (10,20,30)`, `B = (40,50,60)`,
`w = 1/2`. -/
theorem c1_witness :
    (0 : ℚ) ≤ 1 / 2 ∧ (1 / 2 : ℚ) ≤ 1 ∧ (1 / 2 : ℚ) ≠ 0 ∧
    ValidColor (10, 20, 30) ∧ ValidColor (40, 50, 60) ∧
    mix_color (10, 20, 30) (40, 50, 60) (some (1 / 2)) =
      (rhe ((((10 : ℤ) : ℚ) * (1 / 2) + ((40 : ℤ) : ℚ) * (1 - 1 / 2)) / 2),
       rhe ((((20 : ℤ) : ℚ) * (1 / 2) + ((50 : ℤ) : ℚ) * (1 - 1 / 2)) / 2),
       rhe ((((30 : ℤ) : ℚ) * (1 / 2) + ((60 : ℤ) : ℚ) * (1 - 1 / 2)) / 2)) := by
  refine ⟨by norm_num, by norm_num, by norm_num, by decide, by decide, ?_⟩
  exact (c1_amended (10, 20, 30) (40, 50, 60) (1 / 2) (by norm_num) (by norm_num)
    (by decide) (by decide)).1 (by norm_num)

/-! ### Claim C4 -/

/-- C4: `heating_percent` returns 0 when the target is 0; otherwise, when
target and baseline differ, it returns
`floor((temp - base) / (target - base) * 100)`, which is 0 at `temp = base`,
100 at `temp = target`, and exceeds 100 on overshoot without clamping. -/
theorem c4_heating_percent (temp target base_temp : ℚ) :
    (target = 0 → heating_percent temp target base_temp = some 0) ∧
    (target ≠ 0 → target ≠ base_temp →
      heating_percent temp target base_temp =
        some ⌊(temp - base_temp) / (target - base_temp) * 100⌋) ∧
    (target ≠ 0 → target ≠ base_temp →
      heating_percent base_temp target base_temp = some 0) ∧
    (target ≠ 0 → target ≠ base_temp →
      heating_percent target target base_temp = some 100) ∧
    (target ≠ 0 → base_temp < target →
      100 < (heating_percent (2 * target - base_temp) target base_temp).getD 0) := by
  refine ⟨?_, ?_, ?_, ?_, ?_⟩
  · intro h
    simp [heating_percent, h]
  · intro h hne
    rw [heating_percent, if_neg h, if_neg (sub_ne_zero.mpr hne)]
    rw [div_mul_eq_mul_div]
  · intro h hne
    rw [heating_percent, if_neg h, if_neg (sub_ne_zero.mpr hne)]
    norm_num
  · intro h hne
    rw [heating_percent, if_neg h, if_neg (sub_ne_zero.mpr hne)]
    rw [mul_comm, mul_div_assoc, div_self (sub_ne_zero.mpr hne), mul_one]
    norm_num
  · intro h hlt
    have hne : target ≠ base_temp := ne_of_gt hlt
    rw [heating_percent, if_neg h, if_neg (sub_ne_zero.mpr hne)]
    have harg : (2 * target - base_temp - base_temp) * 100 / (target - base_temp) = 200 := by
      rw [show (2 * target - base_temp - base_temp) * 100 =
        200 * (target - base_temp) by ring]
      rw [mul_div_assoc, div_self (sub_ne_zero.mpr hne), mul_one]
    rw [harg]
    norm_num

/-- Witness for C4 at `temp = 5`, `target = 10`, `base_temp = 0` (second
conjunct) and `target = 10`, `base_temp = 0` (fourth conjunct). -/
theorem c4_witness :
    (10 : ℚ) ≠ 0 ∧ (10 : ℚ) ≠ (0 : ℚ) ∧
    heating_percent 5 10 0 = some ⌊((5 : ℚ) - 0) / ((10 : ℚ) - 0) * 100⌋ ∧
    heating_percent 10 10 0 = some 100 := by
  refine ⟨by norm_num, by norm_num, ?_, ?_⟩
  · exact (c4_heating_percent 5 10 0).2.1 (by norm_num) (by norm_num)
  · exact (c4_heating_percent 10 10 0).2.2.2.1 (by norm_num) (by norm_num)

/-! ### Claim C5 -/

/-- C5: `heating_percent` is total (no division by zero) exactly when the
target is 0 or differs from the baseline; when the target is nonzero and
equal to the baseline the division `(temp - base) / (target - base)` is a
division by zero, and this is reachable through `printing_stats` when a
heater's target equals the captured baseline temperature (here bed target
60 with baseline `(60, 20)`). -/
theorem c5_heating_percent_total (temp target base_temp : ℚ) :
    ((heating_percent temp target base_temp).isSome ↔
      target = 0 ∨ target ≠ base_temp) ∧
    printing_stats ⟨60, 60, 0, 20, 200, 0, 0⟩ (some (60, 20)) = none := by
  constructor
  · unfold heating_percent
    split_ifs with h1 h2
    · simp [h1]
    · rw [sub_eq_zero] at h2
      subst h2
      simp [h1]
    · rw [sub_eq_zero] at h2
      simp [h1, h2]
  · have hbed : heating_percent (60 : ℚ) 60 60 = none := by
      norm_num [heating_percent]
    simp [printing_stats, hbed]

/-! ### Claim C10 -/

/-- C10 is false as stated: at channel value 51 and brightness 155 the exact
value `51 * 155 / 255` is exactly 31, but the code computes
`int(51 * (155 / 255))` in binary64 floating point, where `155 / 255` rounds
below the exact quotient, the product lands just under 31, and truncation
yields 30. -/
theorem c10_counterexample :
    color_brightness_correction (51, 51, 51) 155 = (30, 30, 30) ∧
    (51 * 155 : ℤ) / 255 = 31 ∧ (30 : ℤ) ≠ 31 := by
  refine ⟨cbc_51_155, by decide, by decide⟩

/-- C10 (amended): `color_brightness_correction` evaluates
`floor(C_i * b / 255)` in double precision, which can fall one below the
exact value (channel 51 at brightness 155 yields 30, not 31); the endpoint
identities survive: brightness 0 yields `(0,0,0)` and brightness 255
returns the color unchanged. -/
theorem c10_amended (c1 c2 c3 : ℤ) (hc1 : 0 ≤ c1 ∧ c1 ≤ 255)
    (hc2 : 0 ≤ c2 ∧ c2 ≤ 255) (hc3 : 0 ≤ c3 ∧ c3 ≤ 255) :
    color_brightness_correction (c1, c2, c3) 0 = (0, 0, 0) ∧
    color_brightness_correction (c1, c2, c3) 255 = (c1, c2, c3) ∧
    color_brightness_correction (51, 51, 51) 155 = (30, 30, 30) := by
  exact ⟨cbc_zero _, cbc_255 _ ⟨hc1.1, hc1.2, hc2.1, hc2.2, hc3.1, hc3.2⟩, cbc_51_155⟩

/-- Witness for C10 (amended) at the color `(10, 20, 30)`. -/
theorem c10_witness :
    ((0 : ℤ) ≤ 10 ∧ (10 : ℤ) ≤ 255) ∧
    color_brightness_correction (10, 20, 30) 255 = (10, 20, 30) := by
  exact ⟨by decide,
    (c10_amended 10 20 30 (by decide) (by decide) (by decide)).2.1⟩

/-! ### Claim C3 -/

/-- C3 is false as stated: the four rendering conditions in the `printing`
branch are independent `if` statements, not an `elif` chain. At
print-progress 0, bed heating 99, extruder heating 0, the premise of the
claim's particular case holds (progress < 1 and bed < 100), yet both the
bed-heating bar and the extruder-heating bar execute on the same tick. -/
theorem c3_counterexample :
    printingTickActions 0 99 0 = [RenderAction.bedBar, RenderAction.extruderBar] ∧
    ¬(printingTickActions 0 99 0).length ≤ 1 ∧
    (0 : ℤ) < 1 ∧ (99 : ℤ) < 100 := by
  refine ⟨by decide, by decide, by decide, by decide⟩

/-- C3 (amended): the four conditions are tested independently in source
order. At most two actions execute per tick; exactly two execute precisely
when print-progress < 1, bed heating = 99 and extruder heating < 100, in
which case the bed-heating bar runs first and the extruder-heating bar
second (overwriting it). In every other case at most one action executes;
in particular, when print-progress < 1 and bed heating < 99, only the
bed-heating bar renders. -/
theorem c3_amended (pp bed ext : ℤ) :
    (printingTickActions pp bed ext).length ≤ 2 ∧
    ((printingTickActions pp bed ext).length = 2 ↔ pp < 1 ∧ bed = 99 ∧ ext < 100) ∧
    (pp < 1 → bed = 99 → ext < 100 →
      printingTickActions pp bed ext = [RenderAction.bedBar, RenderAction.extruderBar]) ∧
    (pp < 1 → bed < 99 → printingTickActions pp bed ext = [RenderAction.bedBar]) := by
  unfold printingTickActions
  refine ⟨?_, ?_, ?_, ?_⟩
  · split_ifs <;> simp <;> omega
  · split_ifs <;> simp <;> omega
  · intro h1 h2 h3
    subst h2
    split_ifs with g1 g2 g3 g4 <;> first
      | rfl
      | (exfalso; omega)
  · intro h1 h2
    split_ifs with g1 g2 g3 g4 <;> first
      | rfl
      | (exfalso; omega)

/-- Witness for C3 (amended) at progress 0, bed 50, extruder 0. -/
theorem c3_witness :
    (0 : ℤ) < 1 ∧ (50 : ℤ) < 99 ∧
    printingTickActions 0 50 0 = [RenderAction.bedBar] := by
  exact ⟨by decide, by decide, (c3_amended 0 50 0).2.2.2 (by decide) (by decide)⟩

/-! ### Claim C7 -/

/-- C7 is false as stated: starting the loop fresh (`old_state = ''`), the
first `standby` tick differs from the previous state and resets the timer,
so 151 consecutive standby ticks leave `idle_timer` at exactly 300, which
never exceeds `IDLE_TIMEOUT = 300`, and the strip is never cleared within
those 151 ticks. -/
theorem c7_counterexample :
    (idleRun 0 "" (List.replicate 151 "standby")).2.2 = List.replicate 151 false ∧
    (idleRun 0 "" (List.replicate 151 "standby")).1 = 300 := by
  constructor
  · decide
  · decide

/-- C7 (amended): from a fresh start it takes 152 consecutive standby ticks
for the clear to fire: the first tick resets the timer (state differs from
the initial previous-state), ticks 2..152 each add 2, and the strip is
cleared exactly on the 152nd tick, when `idle_timer = 302` first exceeds
300. The update rule is as claimed: a tick whose state is neither
`printing` nor `complete` and equals the previous tick's state adds 2
(clearing once the timer exceeds 300), any other tick resets the timer
to 0. -/
theorem c7_amended :
    (idleRun 0 "" (List.replicate 152 "standby")).2.2 =
      List.replicate 151 false ++ [true] ∧
    (idleRun 0 "" (List.replicate 152 "standby")).1 = 302 ∧
    (∀ idle_timer : ℤ, ∀ old_state printer_state : String,
      (¬(printer_state = "printing" ∨ printer_state = "complete") →
        old_state = printer_state →
        (idleTick idle_timer old_state printer_state).1 = idle_timer + 2 ∧
        ((idleTick idle_timer old_state printer_state).2 = true ↔
          IDLE_TIMEOUT < idle_timer + 2)) ∧
      ((printer_state = "printing" ∨ printer_state = "complete" ∨
          ¬old_state = printer_state) →
        idleTick idle_timer old_state printer_state = (0, false))) := by
  refine ⟨by decide, by decide, ?_⟩
  intro idle_timer old_state printer_state
  constructor
  · intro hns heq
    rw [idleTick, if_pos ⟨hns, heq⟩]
    simp
  · intro h
    rcases h with h | h | h
    · rw [idleTick, if_neg]
      intro hc
      exact hc.1 (Or.inl h)
    · rw [idleTick, if_neg]
      intro hc
      exact hc.1 (Or.inr h)
    · rw [idleTick, if_neg]
      intro hc
      exact h hc.2

/-- Witness for C7 (amended): the update rule applied at timer 300 on a
repeated standby tick, and at a state change. -/
theorem c7_witness :
    (idleTick 300 "standby" "standby").1 = 300 + 2 ∧
    ((idleTick 300 "standby" "standby").2 = true ↔ IDLE_TIMEOUT < 300 + 2) ∧
    idleTick 300 "standby" "printing" = (0, false) := by
  refine ⟨(c7_amended.2.2 300 "standby" "standby").1 (by decide) rfl |>.1,
    (c7_amended.2.2 300 "standby" "standby").1 (by decide) rfl |>.2,
    (c7_amended.2.2 300 "standby" "printing").2 (Or.inl rfl)⟩

/-! ### Claim C8 -/

/-- C8: from `shutdown_counter = 0`, ten consecutive `complete` ticks with
printer power on and both temperatures below their off thresholds produce
exactly one power-off call — on the tenth tick, after the strip is cleared —
and the counter is 0 afterwards. Ticks 1–9 only play the ghost bounce. -/
theorem c8_shutdown (bed_temp extruder_temp : ℚ)
    (hb : bed_temp < BED_TEMP_FOR_OFF) (he : extruder_temp < HOTEND_TEMP_FOR_OFF) :
    completeRun 0 10 bed_temp extruder_temp =
      (0, List.replicate 9 [CEvent.ghostBounce COMPLETE_COLOR] ++
        [[CEvent.ghostBounce COMPLETE_COLOR, CEvent.clearStrip, CEvent.powerOff]]) ∧
    ((completeRun 0 10 bed_temp extruder_temp).2.map
      (fun evts => evts.count CEvent.powerOff)).sum = 1 := by
  have h : completeRun 0 10 bed_temp extruder_temp =
      (0, List.replicate 9 [CEvent.ghostBounce COMPLETE_COLOR] ++
        [[CEvent.ghostBounce COMPLETE_COLOR, CEvent.clearStrip, CEvent.powerOff]]) := by
    simp only [completeRun, completeTick, SHUTDOWN_WHEN_COMPLETE,
      if_pos (And.intro hb he)]
    norm_num
    decide
  refine ⟨h, ?_⟩
  rw [h]
  decide

/-- Witness for C8 at bed 20, extruder 20. -/
theorem c8_witness :
    (20 : ℚ) < BED_TEMP_FOR_OFF ∧ (20 : ℚ) < HOTEND_TEMP_FOR_OFF ∧
    completeRun 0 10 20 20 =
      (0, List.replicate 9 [CEvent.ghostBounce COMPLETE_COLOR] ++
        [[CEvent.ghostBounce COMPLETE_COLOR, CEvent.clearStrip, CEvent.powerOff]]) := by
  refine ⟨by norm_num [BED_TEMP_FOR_OFF], by norm_num [HOTEND_TEMP_FOR_OFF], ?_⟩
  exact (c8_shutdown 20 20 (by norm_num [BED_TEMP_FOR_OFF])
    (by norm_num [HOTEND_TEMP_FOR_OFF])).1

/-! ### Claim C9 -/

/-- C9 is false as stated: `base_temps` is reset only on `complete` ticks.
A print that transitions `printing → standby` (cancelled job) keeps its
captured baseline, and a restarted `printing` job reuses the stale baseline
from the earlier job instead of an empty one. -/
theorem c9_counterexample :
    baseTempsRun none
      [("printing", 60, 20), ("standby", 0, 0), ("printing", 25, 30)] =
      some (60, 20) ∧
    some ((60 : ℚ), (20 : ℚ)) ≠ none ∧
    some ((60 : ℚ), (20 : ℚ)) ≠ some ((25 : ℚ), (30 : ℚ)) := by
  refine ⟨by decide, by decide, by decide⟩

/-- C9 (amended): the baseline is reset to empty only on `complete` ticks;
a tick in any state other than `printing` and `complete` leaves it
unchanged (so a job restart via standby/paused/error reuses a stale
baseline). A `printing` tick captures the current temperatures when the
baseline is empty and never overwrites a held baseline. -/
theorem c9_amended (base_temps : Option (ℚ × ℚ)) (s : String)
    (bed_temp extruder_temp : ℚ) :
    baseTempsTick base_temps "complete" bed_temp extruder_temp = none ∧
    (s ≠ "printing" → s ≠ "complete" →
      baseTempsTick base_temps s bed_temp extruder_temp = base_temps) ∧
    baseTempsTick none "printing" bed_temp extruder_temp =
      some (bed_temp, extruder_temp) ∧
    (∀ x, baseTempsTick (some x) "printing" bed_temp extruder_temp = some x) := by
  refine ⟨?_, ?_, ?_, ?_⟩
  · rw [baseTempsTick.eq_def, if_neg (by decide), if_pos rfl]
  · intro h1 h2
    rw [baseTempsTick.eq_def, if_neg h1, if_neg h2]
  · rw [baseTempsTick.eq_def, if_pos rfl]
  · intro x
    rw [baseTempsTick.eq_def, if_pos rfl]

/-- Witness for C9 (amended) on a `standby` tick holding baseline `(1, 2)`. -/
theorem c9_witness :
    ("standby" : String) ≠ "printing" ∧ ("standby" : String) ≠ "complete" ∧
    baseTempsTick (some (1, 2)) "standby" 3 4 = some (1, 2) := by
  exact ⟨by decide, by decide,
    (c9_amended (some (1, 2)) "standby" 3 4).2.1 (by decide) (by decide)⟩

/-! ### Claim C6 -/

theorem brightnessWrites_append (l1 l2 : List FadeEvent) :
    brightnessWrites (l1 ++ l2) = brightnessWrites l1 ++ brightnessWrites l2 :=
  List.filterMap_append l1 l2 _

theorem brightnessWrites_steps (l : List ℕ) (d : ℚ) :
    brightnessWrites (l.flatMap fun i =>
      [FadeEvent.setBrightness i, FadeEvent.flush, FadeEvent.sleep d]) = l := by
  induction l with
  | nil => rfl
  | cons a t ih =>
      rw [List.flatMap_cons, brightnessWrites_append, ih]
      rfl

theorem steps_length (l : List ℕ) (d : ℚ) :
    (l.flatMap fun i =>
      [FadeEvent.setBrightness i, FadeEvent.flush, FadeEvent.sleep d]).length =
      3 * l.length := by
  induction l with
  | nil => rfl
  | cons a t ih =>
      rw [List.flatMap_cons, List.length_append, ih]
      simp [List.length_cons]
      omega

/-- The trace of `fade`, grouped as (preamble ++ up-ramp) ++ (hold ++
down-ramp). -/
theorem fade_structure (c : ℤ × ℤ × ℤ) (speed : String) :
    fade c speed =
      ([FadeEvent.setAll c, FadeEvent.flush] ++
        ((List.range 255).flatMap fun i =>
          [FadeEvent.setBrightness i, FadeEvent.flush,
           FadeEvent.sleep (if speed = "slow" then (5 : ℚ) / 100 else 5 / 1000)])) ++
      ([FadeEvent.sleep ((if speed = "slow" then (5 : ℚ) / 100 else 5 / 1000) * 5)] ++
        ((List.range 256).reverse.flatMap fun i =>
          [FadeEvent.setBrightness i, FadeEvent.flush,
           FadeEvent.sleep (if speed = "slow" then (5 : ℚ) / 100 else 5 / 1000)])) := by
  simp only [fade, LED_BRIGHTNESS]
  norm_num [List.append_assoc]

/-- C6 is false as stated: in `fade((1,2,3), 'slow')` the brightness values
written before the hold sleep (the event at index 767, of five per-step
delays) are exactly `0..254` — the ramp never sets the configured maximum
255 before holding, because `range(LED_BRIGHTNESS)` stops at 254. -/
theorem c6_counterexample :
    brightnessWrites (List.take 767 (fade (1, 2, 3) "slow")) = List.range 255 ∧
    (255 : ℕ) ∉ List.range 255 ∧
    (fade (1, 2, 3) "slow")[767]? = some (FadeEvent.sleep (5 / 100 * 5)) := by
  have hstruct := fade_structure (1, 2, 3) "slow"
  refine ⟨?_, by simp, ?_⟩
  · rw [hstruct, List.take_left' (by rw [List.length_append, steps_length]; simp)]
    rw [brightnessWrites_append, brightnessWrites_steps]
    simp [brightnessWrites, List.filterMap_cons]
  · rw [hstruct,
      List.getElem?_append_right (by rw [List.length_append, steps_length]; simp)]
    rw [List.length_append, steps_length]
    norm_num

/-- C6 (amended): `fade(strip, color, speed)` sets all pixels to the color
and flushes (at whatever global brightness was previously in effect), then
writes brightness `0,1,...,254` — stopping one below the configured maximum
255 — flushing and sleeping the per-step delay after each write; it then
sleeps five per-step delays (the hold, at brightness 254, event index 767),
and finally writes `255, 254, ..., 0` the same way, so 255 is only reached
momentarily at the start of the down-ramp. The per-step delay is `0.05`
when the speed is `'slow'` and `0.005` otherwise. -/
theorem c6_amended (c : ℤ × ℤ × ℤ) (speed : String) :
    brightnessWrites (fade c speed) = List.range 255 ++ (List.range 256).reverse ∧
    List.take 2 (fade c speed) = [FadeEvent.setAll c, FadeEvent.flush] ∧
    brightnessWrites (List.take 767 (fade c speed)) = List.range 255 ∧
    (fade c speed)[767]? =
      some (FadeEvent.sleep ((if speed = "slow" then (5 : ℚ) / 100 else 5 / 1000) * 5)) ∧
    brightnessWrites (List.drop 768 (fade c speed)) = (List.range 256).reverse := by
  have hstruct := fade_structure c speed
  refine ⟨?_, ?_, ?_, ?_, ?_⟩
  · rw [hstruct, brightnessWrites_append, brightnessWrites_append,
      brightnessWrites_append, brightnessWrites_steps, brightnessWrites_steps]
    simp [brightnessWrites, List.filterMap_cons]
  · rw [hstruct, List.append_assoc]
    exact List.take_left' rfl
  · rw [hstruct, List.take_left' (by rw [List.length_append, steps_length]; simp)]
    rw [brightnessWrites_append, brightnessWrites_steps]
    simp [brightnessWrites, List.filterMap_cons]
  · rw [hstruct,
      List.getElem?_append_right (by rw [List.length_append, steps_length]; simp)]
    rw [List.length_append, steps_length]
    norm_num
  · rw [hstruct, ← List.append_assoc]
    rw [List.drop_left' (by
      rw [List.length_append, List.length_append, steps_length]
      simp)]
    exact brightnessWrites_steps _ _

/-! ### Claim C2 -/

theorem setPixels_apply (strip : Strip) (idxs : List ℕ) (c : ℤ × ℤ × ℤ) (j : ℕ) :
    setPixels strip idxs c j = if j ∈ idxs then c else strip j := by
  induction idxs generalizing strip with
  | nil => simp [setPixels]
  | cons a t ih =>
      have hshow : setPixels strip (a :: t) c = setPixels (Function.update strip a c) t c := rfl
      rw [hshow, ih]
      by_cases hj : j ∈ t
      · simp [hj]
      · by_cases ha : j = a
        · subst ha
          simp [hj, Function.update_same]
        · simp [hj, ha, Function.update_noteq ha]

/-- C2: `progress` with percent 0 paints every pixel in the base color, and
with percent 100 paints every pixel in the progress color with no blended
pixel; with percent 55 on the 10-pixel strip, pixels 0-4 get the progress
color, pixel 5 gets `mix_color(progress, base, 1/2)` (the sub-pixel blend at
the remainder 0.5) and pixels 6-9 get the base color. All pixels are drawn
through `color_brightness_correction` at the configured maximum brightness
255, which is the identity on in-range colors (forward direction,
`REVERSE = False`). -/
theorem c2_progress (strip0 : Strip) (base_color progress_color : ℤ × ℤ × ℤ)
    (N : ℕ) (hbase : ValidColor base_color) (hprog : ValidColor progress_color) :
    (∀ i, i < N → progress strip0 N 0 base_color progress_color i = base_color) ∧
    (∀ i, i < N → progress strip0 N 100 base_color progress_color i = progress_color) ∧
    (∀ i, i < 5 → progress strip0 10 55 base_color progress_color i = progress_color) ∧
    progress strip0 10 55 base_color progress_color 5 =
      mix_color progress_color base_color (some (1 / 2)) ∧
    (∀ i, 5 < i → i < 10 → progress strip0 10 55 base_color progress_color i = base_color) := by
  have hcast : ((LED_BRIGHTNESS : ℕ) : ℚ) = 255 := by norm_num [LED_BRIGHTNESS]
  have hb255 := cbc_255 base_color hbase
  have hp255 := cbc_255 progress_color hprog
  have hmix_valid : ValidColor (mix_color progress_color base_color (some (1 / 2))) :=
    mix_color_valid progress_color base_color (1 / 2) (by norm_num) (by norm_num) hprog hbase
  have hm255 := cbc_255 _ hmix_valid
  have h55 : ∀ j : ℕ, progress strip0 10 55 base_color progress_color j =
      if j ∈ (List.range 4).map (fun k => 10 - 4 + k) then base_color
      else if j = 5 then mix_color progress_color base_color (some (1 / 2))
      else if j ∈ (List.range 5).map (fun k => k) then progress_color
      else strip0 j := by
    intro j
    have hbar : (55 : ℚ) / 100 * ((10 : ℕ) : ℚ) = 11 / 2 := by norm_num
    have hfloor : ⌊(11 / 2 : ℚ)⌋ = 5 := by norm_num
    have hrem : (11 / 2 : ℚ) - ((5 : ℤ) : ℚ) = 1 / 2 := by norm_num
    have htn : (5 : ℤ).toNat = 5 := rfl
    have hhalf : (0 : ℚ) < 1 / 2 := by norm_num
    simp only [progress, REVERSE, hcast, hbar, hfloor, hrem, htn, Bool.false_eq_true,
      if_false, if_pos hhalf]
    rw [setPixels_apply, Function.update_apply, setPixels_apply]
    norm_num [hb255, hp255, hm255]
  refine ⟨?_, ?_, ?_, ?_, ?_⟩
  · intro i hi
    have hbar : (0 : ℚ) / 100 * (N : ℚ) = ((0 : ℤ) : ℚ) := by norm_num
    simp only [progress, REVERSE, hcast, hbar, Int.floor_intCast, Int.toNat_zero,
      List.range_zero, List.map_nil, Bool.false_eq_true, if_false, sub_self,
      lt_irrefl, Nat.sub_zero]
    have hidx : (List.range N).map (fun k => N - N + k) = List.range N := by simp
    rw [hidx, setPixels_apply, if_pos (List.mem_range.mpr hi), hb255]
  · intro i hi
    have hbar : (100 : ℚ) / 100 * (N : ℚ) = ((N : ℤ) : ℚ) := by push_cast; norm_num
    simp only [progress, REVERSE, hcast, hbar, Int.floor_intCast, Int.toNat_natCast,
      Bool.false_eq_true, if_false, sub_self, lt_irrefl, Nat.sub_self,
      List.range_zero, List.map_nil]
    rw [setPixels_apply, setPixels_apply]
    simp only [List.not_mem_nil, if_false]
    rw [if_pos (by simpa using List.mem_range.mpr hi), hp255]
  · intro i hi
    rw [h55 i, if_neg (by
        simp only [List.mem_map, List.mem_range]
        rintro ⟨x, hx, hfx⟩
        omega),
      if_neg (by omega),
      if_pos (by
        simp only [List.mem_map, List.mem_range]
        exact ⟨i, hi, rfl⟩)]
  · rw [h55 5, if_neg (by
        simp only [List.mem_map, List.mem_range]
        rintro ⟨x, hx, hfx⟩
        omega),
      if_pos rfl]
  · intro i hi5 hi10
    rw [h55 i, if_pos (by
        simp only [List.mem_map, List.mem_range]
        exact ⟨i - 6, by omega, by omega⟩)]

/-- Witness for C2 at a 10-pixel strip with concrete valid colors. -/
theorem c2_witness :
    ValidColor (10, 20, 30) ∧ ValidColor (200, 100, 50) ∧
    progress (fun _ => (0, 0, 0)) 10 55 (10, 20, 30) (200, 100, 50) 5 =
      mix_color (200, 100, 50) (10, 20, 30) (some (1 / 2)) := by
  exact ⟨by decide, by decide,
    (c2_progress (fun _ => (0, 0, 0)) (10, 20, 30) (200, 100, 50) 10
      (by decide) (by decide)).2.2.2.1⟩

end KlipperLed
